import Mathlib

/-!
Verification of the stockcheck dashboard repository.

The repository contains three front-ends over the same fetch-or-fallback
logic:
  * `app.py` — `StreamlitStockDashboard` (Streamlit app),
  * `web_dashboard.py` — `WebStockDashboard` (Flask server),
  * `stock_dashboard.py` — `StockDashboard` (terminal script),
plus a `TickerLookup` helper in `app.py` that calls a hosted LLM API.

The external finvizfinance provider and the HTTP layer are modelled as
oracles (`Provider`, `LookupEnv`): every outbound call is a field of the
oracle returning either a value or a raised exception (`Except`).  The
Python dictionaries holding the quote record are modelled as
insertion-ordered association lists with Python dict-assignment semantics
(`dictSet`: update in place if the key exists, append otherwise).
-/

namespace Stockcheck

/-- A value stored in the quote record.  The finviz provider returns
strings for fundamentals and the description, a list of strings for the
trading signal, and a data frame (modelled as rows of strings) for the
outer ratings. -/
inductive Value where
  | str : String → Value
  | strList : List String → Value
  | df : List (List String) → Value
deriving DecidableEq, Repr

/-- `true` exactly on `Value.str`. -/
def Value.isStr : Value → Bool
  | .str _ => true
  | _ => false

/-- A Python dict from display-label strings to values, kept in insertion
order. -/
abbrev Record := List (String × Value)

/-- Python dict assignment `r[k] = v`: replace the value in place if the
key is present, append the pair otherwise. -/
def dictSet (k : String) (v : Value) (r : Record) : Record :=
  if r.any (fun kv => kv.1 == k) then
    r.map (fun kv => if kv.1 = k then (k, v) else kv)
  else
    r ++ [(k, v)]

/-- `r.all (fun kv => kv.2.isStr)`: every value of the record is a plain
string. -/
def allStr (r : Record) : Bool :=
  r.all (fun kv => kv.2.isStr)

/-- The fallback `Company` string used by `app.py` and `web_dashboard.py`:
`f'Sample Company ({ticker})'`. -/
def sampleCompany (ticker : String) : String :=
  "Sample Company (" ++ ticker ++ ")"

/-- The hard-coded fallback record of
`StreamlitStockDashboard.fetch_company_data` (app.py lines 151-180); the
record in `WebStockDashboard.fetch_company_data` (web_dashboard.py lines
66-95) is the identical literal. -/
def fallbackRecord (ticker : String) : Record :=
  [ ("Company", .str (sampleCompany ticker)),
    ("Sector", .str "Technology"),
    ("Industry", .str "Consumer Electronics"),
    ("Country", .str "USA"),
    ("Market Cap", .str "$2.5T"),
    ("Enterprise Value", .str "$2.4T"),
    ("Price", .str "$150.25"),
    ("52W High", .str "$175.50"),
    ("52W Low", .str "$120.00"),
    ("Volume", .str "45,231,100"),
    ("P/E", .str "25.5"),
    ("P/B", .str "8.2"),
    ("P/S", .str "6.1"),
    ("PEG", .str "1.8"),
    ("ROE", .str "32.5%"),
    ("ROI", .str "28.3%"),
    ("ROA", .str "18.7%"),
    ("Profit Margin", .str "22.4%"),
    ("Dividend", .str "$0.96"),
    ("Dividend %", .str "2.5%"),
    ("Payout Ratio", .str "25.0%"),
    ("Recommendation", .str "Buy"),
    ("Target Price", .str "$165.00"),
    ("Beta", .str "1.25"),
    ("Volatility", .str "25.2%"),
    ("Description", .str "Sample company description"),
    ("Signal", .str "Buy"),
    ("Ratings", .str "Positive") ]

/-- The hard-coded fallback record of `StockDashboard.fetch_company_data`
(stock_dashboard.py lines 99-129): the `Company` field interpolates the
entered company name, not the literal `Sample Company`, and the key set
differs (`ROIC`, `Volatility W`, `Volatility M`). -/
def fallbackRecordTerminal (company_name ticker : String) : Record :=
  [ ("Company", .str (company_name ++ " (" ++ ticker ++ ")")),
    ("Sector", .str "Technology"),
    ("Industry", .str "Consumer Electronics"),
    ("Country", .str "USA"),
    ("Market Cap", .str "$2.5T"),
    ("Enterprise Value", .str "$2.4T"),
    ("Price", .str "$150.25"),
    ("52W High", .str "$175.50"),
    ("52W Low", .str "$120.00"),
    ("Volume", .str "45,231,100"),
    ("P/E", .str "25.5"),
    ("P/B", .str "8.2"),
    ("P/S", .str "6.1"),
    ("PEG", .str "1.8"),
    ("ROE", .str "32.5%"),
    ("ROIC", .str "28.3%"),
    ("ROA", .str "18.7%"),
    ("Profit Margin", .str "22.4%"),
    ("Dividend", .str "$0.96"),
    ("Dividend %", .str "2.5%"),
    ("Payout Ratio", .str "25.0%"),
    ("Recommendation", .str "Buy"),
    ("Target Price", .str "$165.00"),
    ("Beta", .str "1.25"),
    ("Volatility W", .str "25.2%"),
    ("Volatility M", .str "20.1%"),
    ("Description", .str "Sample company description"),
    ("Signal", .str "Buy"),
    ("Ratings", .str "Positive") ]

/-- Oracle for the finvizfinance provider: each method, applied to a
ticker, either returns data or raises (`Except.error` carries the
exception message).  `fundament` covers `finvizfinance(ticker)`
construction together with `ticker_fundament()` — both sit inside the
same outer `try`. -/
structure Provider where
  fundament : String → Except String Record
  description : String → Except String Value
  signal : String → Except String Value
  ratings : String → Except String Value

/-- The value stored for an auxiliary field: the provider's value on
success, the string `'N/A'` when the inner `except` fires. -/
def auxVal (x : Except String Value) : Value :=
  match x with
  | .ok v => v
  | .error _ => .str "N/A"

/-- The mutable attributes of `StreamlitStockDashboard` /
`WebStockDashboard`: `ticker`, `quote_data` and `stock` (the
finvizfinance object, identified by the ticker it wraps).  All start as
`None` in `__init__`. -/
structure DashState where
  ticker : Option String
  quote_data : Option Record
  stock : Option String
deriving DecidableEq, Repr

/-- The state built by `StreamlitStockDashboard.__init__` /
`WebStockDashboard.__init__`. -/
def initDashState : DashState :=
  { ticker := none, quote_data := none, stock := none }

/-- `fetch_company_data(self, ticker)` as shared by
`StreamlitStockDashboard` (app.py lines 108-183) and `WebStockDashboard`
(web_dashboard.py lines 27-97): on provider success the fundament record
is stored and the `Description` / `Signal` / `Ratings` keys are each set
to the provider's value or `'N/A'` under their own inner `except`; on any
exception from the primary fetch the whole record is replaced by
`fallbackRecord`, `ticker` is overwritten and `stock` is left unchanged.
Both paths return `True`. -/
def fetch_company_data (p : Provider) (s : DashState) (ticker : String) :
    DashState × Bool :=
  match p.fundament ticker with
  | .ok q =>
      let q1 := dictSet "Description" (auxVal (p.description ticker)) q
      let q2 := dictSet "Signal" (auxVal (p.signal ticker)) q1
      let q3 := dictSet "Ratings" (auxVal (p.ratings ticker)) q2
      ({ ticker := some ticker, quote_data := some q3, stock := some ticker },
       true)
  | .error _ =>
      ({ s with ticker := some ticker,
                quote_data := some (fallbackRecord ticker) },
       true)

/-- The mutable attributes of the terminal `StockDashboard`
(stock_dashboard.py): `company_name` and `ticker` are set by
`get_company_input` / `find_ticker` before the fetch, so they are plain
strings here; `quote_data` and `stock` start as `None`. -/
structure TermState where
  company_name : String
  ticker : String
  quote_data : Option Record
  stock : Option String
deriving DecidableEq, Repr

/-- `StockDashboard.fetch_company_data(self)` (stock_dashboard.py lines
59-130): reads the ticker from `self.ticker`; on the exception path only
`quote_data` is replaced (by the terminal fallback record built from
`self.company_name` and `self.ticker`); `ticker` and `stock` are not
assigned there.  Both paths return `True`. -/
def fetch_company_data_terminal (p : Provider) (s : TermState) :
    TermState × Bool :=
  match p.fundament s.ticker with
  | .ok q =>
      let q1 := dictSet "Description" (auxVal (p.description s.ticker)) q
      let q2 := dictSet "Signal" (auxVal (p.signal s.ticker)) q1
      let q3 := dictSet "Ratings" (auxVal (p.ratings s.ticker)) q2
      ({ s with quote_data := some q3, stock := some s.ticker }, true)
  | .error _ =>
      ({ s with
          quote_data := some (fallbackRecordTerminal s.company_name s.ticker) },
       true)

/-- The four charts built by `create_charts`, identical in data between
`StreamlitStockDashboard.create_charts` (app.py lines 185-262, plotly
figures) and `WebStockDashboard.create_charts` (web_dashboard.py lines
99-180, trace/layout dicts): x labels / y series / title for price,
volume and valuation, labels / values / title for the performance pie. -/
structure ChartSet where
  priceX : List String
  priceY : List ℚ
  priceTitle : String
  volumeX : List String
  volumeY : List ℚ
  volumeTitle : String
  valuationX : List String
  valuationY : List ℚ
  valuationTitle : String
  performanceLabels : List String
  performanceValues : List ℚ
  performanceTitle : String
deriving DecidableEq, Repr, Inhabited

/-- `create_charts(self)`: returns the empty dict when `self.quote_data`
is falsy (`None` or an empty dict), otherwise the four hard-coded charts
whose titles interpolate `self.ticker` (a Python f-string renders `None`
as the string `"None"`). -/
def create_charts (tickerOpt : Option String) (qOpt : Option Record) :
    Option ChartSet :=
  match qOpt with
  | none => none
  | some q =>
      if q.isEmpty then none
      else
        let tk := match tickerOpt with
          | some t => t
          | none => "None"
        some
          { priceX := ["Jan", "Feb", "Mar", "Apr", "May", "Jun"],
            priceY := [100, 105, 102, 110, 108, 115],
            priceTitle := tk ++ " Price Performance (6 Months)",
            volumeX := ["Jan", "Feb", "Mar", "Apr", "May", "Jun"],
            volumeY := [1000000, 1200000, 900000, 1500000, 1300000, 1100000],
            volumeTitle := tk ++ " Trading Volume (6 Months)",
            valuationX := ["P/E", "P/B", "P/S", "PEG"],
            valuationY := [25.5, 8.2, 6.1, 1.8],
            valuationTitle := tk ++ " Valuation Ratios",
            performanceLabels := ["ROE", "ROI", "ROA", "Profit Margin"],
            performanceValues := [32.5, 28.3, 18.7, 22.4],
            performanceTitle := tk ++ " Performance Metrics Distribution" }

/-- The dict returned by `WebStockDashboard.get_dashboard_data`: the
success branch carries `ticker`, `data` and `charts` and no `error` key;
the failure branch carries only `error` (absent keys are `none`). -/
structure DashResult where
  success : Bool
  ticker : Option String
  data : Option Record
  charts : Option ChartSet
  error : Option String
deriving DecidableEq, Repr

/-- `WebStockDashboard.get_dashboard_data(self, ticker)`
(web_dashboard.py lines 182-196): calls `fetch_company_data`, and on a
`True` return builds the success dict from the mutated attributes,
otherwise the `{'success': False, 'error': 'Failed to fetch data'}`
dict. -/
def get_dashboard_data (p : Provider) (s : DashState) (ticker : String) :
    DashState × DashResult :=
  let fr := fetch_company_data p s ticker
  if fr.2 then
    (fr.1,
     { success := true, ticker := fr.1.ticker, data := fr.1.quote_data,
       charts := create_charts fr.1.ticker fr.1.quote_data, error := none })
  else
    (fr.1,
     { success := false, ticker := none, data := none, charts := none,
       error := some "Failed to fetch data" })

/-- The response produced by a Flask route of `web_dashboard.py`:
`dashboard.html` rendered with ticker, data and charts; `error.html`
rendered with an error message; or the bare jsonified error for an empty
company name. -/
inductive WebResponse where
  | dashboardPage : String → Record → ChartSet → WebResponse
  | errorPage : String → WebResponse
  | jsonError : String → WebResponse
deriving DecidableEq, Repr

/-- The `/api/dashboard/<ticker>` route (web_dashboard.py lines 228-232):
calls `get_dashboard_data` on the module-level shared `dashboard` object
and jsonifies the result.  Returns the mutated shared state together with
the response body. -/
def api_dashboard (p : Provider) (s : DashState) (ticker : String) :
    DashState × DashResult :=
  get_dashboard_data p s ticker

/-- Python `s.strip()`: drop leading and trailing whitespace. -/
def pyStrip (s : String) : String :=
  String.mk
    (((s.data.dropWhile Char.isWhitespace).reverse.dropWhile
        Char.isWhitespace).reverse)

/-- Python `s.upper()`: uppercase every character. -/
def pyUpper (s : String) : String :=
  String.mk (s.data.map Char.toUpper)

/-- The rendering step of the `/dashboard` POST route: `dashboard.html`
with ticker, data and charts when the result dict says success,
`error.html` with the error message otherwise. -/
def renderDashResult (r : DashResult) : WebResponse :=
  if r.success then
    .dashboardPage (r.ticker.getD "") (r.data.getD []) (r.charts.getD default)
  else
    .errorPage (r.error.getD "")

/-- The `/dashboard` POST route (web_dashboard.py lines 206-226): strips
the submitted company name, rejects an empty one, uppercases it into a
ticker, calls `get_dashboard_data` on the shared `dashboard` object and
renders `dashboard.html` on success or `error.html` otherwise. -/
def show_dashboard (p : Provider) (s : DashState) (raw : String) :
    DashState × WebResponse :=
  let name := pyStrip raw
  if name.isEmpty then
    (s, .jsonError "Company name is required")
  else
    let r := get_dashboard_data p s (pyUpper name)
    (r.1, renderDashResult r.2)

/-- The result dict of `TickerLookup.find_ticker`. -/
structure LookupResult where
  success : Bool
  ticker : Option String
  error : Option String
deriving DecidableEq, Repr

/-- The decoded body of a 200 response from the chat-completions
endpoint: `choices` is `some` the list of `message.content` strings when
the JSON carries a usable `choices` key, `none` otherwise. -/
structure HttpResp where
  status : Nat
  choices : Option (List String)
deriving DecidableEq, Repr

/-- Oracle for `TickerLookup`: the configured API key (from
`st.secrets`, possibly absent) and the outcome of `requests.post` on the
chat-completions endpoint (`Except.error` models a raised exception,
message included). -/
structure LookupEnv where
  apiKey : Option String
  post : Except String HttpResp

/-- Python truthiness of `self.api_key`: `not self.api_key` holds for
`None` and for the empty string. -/
def apiKeyTruthy (k : Option String) : Bool :=
  match k with
  | some s => !s.isEmpty
  | none => false

/-- The content of the first choice of the response, when the call
succeeded and the `choices` list is non-empty. -/
def firstChoiceContent (env : LookupEnv) : Option String :=
  match env.post with
  | .ok r =>
      match r.choices with
      | some (c :: _) => some c
      | _ => none
  | .error _ => none

/-- `TickerLookup.find_ticker(self, company_name)` (app.py lines 44-65):
guard on the API key and the company name, post to the LLM endpoint,
and on a 200 response with a non-empty `choices` list return the
stripped, uppercased first content when non-empty; every other outcome
falls through to `Could not find ticker symbol`, and a raised exception
is returned as its message. -/
def find_ticker (env : LookupEnv) (company_name : String) : LookupResult :=
  if apiKeyTruthy env.apiKey = false then
    { success := false, ticker := none, error := some "API key not configured." }
  else if company_name.isEmpty then
    { success := false, ticker := none, error := some "Company name is required" }
  else
    match env.post with
    | .error e => { success := false, ticker := none, error := some e }
    | .ok resp =>
        if resp.status == 200 then
          match resp.choices with
          | some (c :: _) =>
              let ticker := pyUpper (pyStrip c)
              if !ticker.isEmpty then
                { success := true, ticker := some ticker, error := none }
              else
                { success := false, ticker := none,
                  error := some "Could not find ticker symbol" }
          | _ =>
              { success := false, ticker := none,
                error := some "Could not find ticker symbol" }
        else
          { success := false, ticker := none,
            error := some "Could not find ticker symbol" }

/-- The claim's success condition for `find_ticker`, stated from the
spec side for comparison with the code: key configured, non-empty name,
HTTP 200 with a non-empty choices list, and non-empty stripped
uppercased first content. -/
def findTickerSuccessSpec (env : LookupEnv) (company_name : String) : Prop :=
  apiKeyTruthy env.apiKey = true ∧
  company_name.isEmpty = false ∧
  ∃ r, env.post = .ok r ∧ r.status = 200 ∧
    ∃ c cs, r.choices = some (c :: cs) ∧
      (pyUpper (pyStrip c)).isEmpty = false

/-- Python `t.replace('.', '')`: drop every dot. -/
def stripDots (t : String) : String :=
  String.mk (t.toList.filter (fun c => c ≠ '.'))

/-- Python `s.isalnum()` (restricted to the ASCII alphanumerics tickers
use): false on the empty string, else true exactly when every character
is alphanumeric. -/
def pyIsAlnum (s : String) : Bool :=
  !s.isEmpty && s.toList.all Char.isAlphanum

/-- `StreamlitStockDashboard.validate_ticker(self, ticker)` (app.py
lines 92-106): empty check, then character check on the dot-stripped
ticker, then length check, with a message per failing check. -/
def validate_ticker (t : String) : Bool × String :=
  if t.isEmpty then
    (false, "Ticker cannot be empty")
  else if !(pyIsAlnum (stripDots t)) then
    (false, "Ticker contains invalid characters")
  else if t.length > 10 then
    (false, "Ticker too long")
  else
    (true, "Valid ticker format")

/-- Python `d.get(k)` on the association-list model: the value stored at
the key, if present. -/
def dictGet (k : String) : Record → Option Value
  | [] => none
  | (a, v) :: r => if a = k then some v else dictGet k r

/-- A provider on which every call raises — the behaviour finviz shows
for an invalid ticker (HTTP 404) or with the network down. -/
def pOffline : Provider :=
  { fundament := fun _ => .error "404 Not Found",
    description := fun _ => .error "404 Not Found",
    signal := fun _ => .error "404 Not Found",
    ratings := fun _ => .error "404 Not Found" }

/-- A provider whose fundamentals call succeeds but whose description
call raises — e.g. a timeout between the two requests. -/
def pMixed : Provider :=
  { fundament := fun _ =>
      .ok [("Company", .str "Apple Inc."), ("Price", .str "150.00")],
    description := fun _ => .error "timeout",
    signal := fun _ => .ok (.str "Buy"),
    ratings := fun _ => .ok (.str "Positive") }

/-- A provider whose fundamentals call succeeds but whose three
auxiliary calls (description, signal, ratings) all raise. -/
def pAuxFail : Provider :=
  { fundament := fun _ =>
      .ok [("Company", .str "Apple Inc."), ("Price", .str "150.00")],
    description := fun _ => .error "timeout",
    signal := fun _ => .error "timeout",
    ratings := fun _ => .error "timeout" }

/-- A fully successful provider whose signal call returns an empty list
and whose ratings call returns a data frame — shapes the finviz library
actually produces, and which the display code of `app.py` and
`stock_dashboard.py` explicitly guards against. -/
def pNonString : Provider :=
  { fundament := fun _ => .ok [("Company", .str "Apple Inc.")],
    description := fun _ => .ok (.str "Apple designs smartphones."),
    signal := fun _ => .ok (.strList []),
    ratings := fun _ => .ok (.df [["2024-01-01", "Upgrade"]]) }

/-- A fully successful provider returning strings everywhere, used in
witnesses. -/
def pGood : Provider :=
  { fundament := fun _ =>
      .ok [("Company", .str "Apple Inc."), ("Price", .str "150.00")],
    description := fun _ => .ok (.str "Apple designs smartphones."),
    signal := fun _ => .ok (.str "Buy"),
    ratings := fun _ => .ok (.str "Positive") }

/-- A lookup environment with a configured key and a successful 200
response whose first choice content needs stripping and uppercasing. -/
def envGood : LookupEnv :=
  { apiKey := some "sk-test", post := .ok { status := 200, choices := some [" nvda "] } }

theorem dictGet_map_setKey (k k' : String) (v : Value) (r : Record)
    (h : k' ≠ k) :
    dictGet k' (r.map (fun kv => if kv.1 = k then (k, v) else kv)) =
      dictGet k' r := by
  induction r with
  | nil => rfl
  | cons a l ih =>
      obtain ⟨ak, av⟩ := a
      simp only [List.map_cons]
      split_ifs with hak
      · subst hak
        simp [dictGet, Ne.symm h, ih]
      · simp [dictGet, ih]

theorem dictGet_append_single (k k' : String) (v : Value) (r : Record)
    (h : k' ≠ k) :
    dictGet k' (r ++ [(k, v)]) = dictGet k' r := by
  induction r with
  | nil => simp [dictGet, Ne.symm h]
  | cons a l ih =>
      obtain ⟨ak, av⟩ := a
      by_cases hak : ak = k'
      · simp [dictGet, hak, ih]
      · simp [dictGet, hak, ih]

/-- Setting one key of a Python dict leaves every other key unchanged. -/
theorem dictGet_dictSet_ne (k k' : String) (v : Value) (r : Record)
    (h : k' ≠ k) :
    dictGet k' (dictSet k v r) = dictGet k' r := by
  unfold dictSet
  split
  · exact dictGet_map_setKey k k' v r h
  · exact dictGet_append_single k k' v r h

/-- Python dict assignment never empties a dict. -/
theorem dictSet_ne_nil (k : String) (v : Value) (r : Record) :
    dictSet k v r ≠ [] := by
  unfold dictSet
  split
  next hany =>
    cases r with
    | nil => simp at hany
    | cons a l => simp
  next => simp

/-- `fetch_company_data` returns `True` on the success path and on the
fallback path alike. -/
theorem fetch_company_data_true (p : Provider) (s : DashState) (t : String) :
    (fetch_company_data p s t).2 = true := by
  cases hf : p.fundament t <;> simp [fetch_company_data, hf]

/-- The state after a fallback fetch: `ticker` and `quote_data`
overwritten, the rest of the state (in particular `stock`) kept. -/
theorem fetch_company_data_error_state (p : Provider) (s : DashState)
    (t : String) (e : String) (h : p.fundament t = .error e) :
    (fetch_company_data p s t).1 =
      { s with ticker := some t, quote_data := some (fallbackRecord t) } := by
  simp [fetch_company_data, h]

/-- The record after a successful fetch: the fundament record with the
three auxiliary keys set. -/
theorem fetch_company_data_ok_state (p : Provider) (s : DashState)
    (t : String) (q : Record) (h : p.fundament t = .ok q) :
    (fetch_company_data p s t).1 =
      { ticker := some t,
        quote_data := some (dictSet "Ratings" (auxVal (p.ratings t))
          (dictSet "Signal" (auxVal (p.signal t))
            (dictSet "Description" (auxVal (p.description t)) q))),
        stock := some t } := by
  simp [fetch_company_data, h]

/-- After any fetch the stored record is non-empty, so `create_charts`
never takes its empty-dict branch. -/
theorem fetch_company_data_quote_ne_nil (p : Provider) (s : DashState)
    (t : String) (q : Record)
    (h : (fetch_company_data p s t).1.quote_data = some q) : q ≠ [] := by
  cases hf : p.fundament t with
  | ok q0 =>
      rw [fetch_company_data_ok_state p s t q0 hf] at h
      simp at h
      subst h
      exact dictSet_ne_nil _ _ _
  | error e =>
      rw [fetch_company_data_error_state p s t e hf] at h
      simp at h
      subst h
      simp [fallbackRecord]

theorem dictGet_map_setKey_self (k : String) (v : Value) (r : Record)
    (hany : r.any (fun kv => kv.1 == k) = true) :
    dictGet k (r.map (fun kv => if kv.1 = k then (k, v) else kv)) = some v := by
  induction r with
  | nil => simp at hany
  | cons a l ih =>
      obtain ⟨ak, av⟩ := a
      simp only [List.map_cons]
      split_ifs with hak
      · subst hak
        simp [dictGet]
      · have hany2 : l.any (fun kv => kv.1 == k) = true := by
          simp only [List.any_cons, Bool.or_eq_true] at hany
          rcases hany with h1 | h1
          · exact absurd (by simpa using h1) hak
          · exact h1
        simp [dictGet, hak, ih hany2]

theorem dictGet_append_single_self (k : String) (v : Value) (r : Record)
    (hnone : r.any (fun kv => kv.1 == k) = false) :
    dictGet k (r ++ [(k, v)]) = some v := by
  induction r with
  | nil => simp [dictGet]
  | cons a l ih =>
      obtain ⟨ak, av⟩ := a
      simp only [List.any_cons, Bool.or_eq_false_iff] at hnone
      have hak : ¬ak = k := by simpa using hnone.1
      simp [dictGet, hak, ih hnone.2]

/-- Setting a key of a Python dict stores exactly that value at the
key. -/
theorem dictGet_dictSet_self (k : String) (v : Value) (r : Record) :
    dictGet k (dictSet k v r) = some v := by
  unfold dictSet
  split
  next hany => exact dictGet_map_setKey_self k v r hany
  next hany =>
    have hb : r.any (fun kv => kv.1 == k) = false := by
      cases hv : r.any (fun kv => kv.1 == k)
      · rfl
      · exact absurd hv hany
    exact dictGet_append_single_self k v r hb

/-- `create_charts` on a stored ticker and a non-empty record always
builds the charts. -/
theorem create_charts_some_of_ne_nil (tOpt : Option String) (q : Record)
    (h : q ≠ []) : (create_charts tOpt (some q)).isSome = true := by
  cases q with
  | nil => exact absurd rfl h
  | cons a l => cases tOpt <;> simp [create_charts]

/-- The dict returned by `get_dashboard_data` does not depend on the
state the shared dashboard object was left in by earlier requests: the
fetch overwrites `ticker` and `quote_data` before they are read, and
`stock` is never read. -/
theorem get_dashboard_data_state_independent (p : Provider) (t : String)
    (s1 s2 : DashState) :
    (get_dashboard_data p s1 t).2 = (get_dashboard_data p s2 t).2 := by
  cases hf : p.fundament t with
  | ok q => simp [get_dashboard_data, fetch_company_data, hf]
  | error e => simp [get_dashboard_data, fetch_company_data, hf]

/-- C1 counterexample: in the terminal front-end (stock_dashboard.py)
the fallback record interpolates the entered company name, so with
company name `Apple` and ticker `ORACLE` the Company field of the
fallback record is `Apple (ORACLE)`, which is not the claimed pattern
`Sample Company (ORACLE)`. -/
theorem c1_terminal_fallback_counterexample :
    dictGet "Company"
        (((fetch_company_data_terminal pOffline
            ⟨"Apple", "ORACLE", none, none⟩).1.quote_data).getD []) =
      some (.str "Apple (ORACLE)") ∧
    "Apple (ORACLE)" ≠ sampleCompany "ORACLE" := by
  refine ⟨rfl, ?_⟩
  decide

/-- C1 (amended): for every ticker on which the live fetch raises, the
substituted fallback record has Company equal to
`Sample Company (<ticker>)` in the Streamlit app and in the Flask server
(which share `fetch_company_data`), while in the terminal script the
fallback Company is `<company name> (<ticker>)`, matching the claimed
pattern only when the entered company name is literally
`Sample Company`. -/
theorem c1_fallback_company_field (p : Provider) (s : DashState)
    (ts : TermState) (t e e2 : String)
    (h : p.fundament t = .error e)
    (h2 : p.fundament ts.ticker = .error e2) :
    dictGet "Company" (((fetch_company_data p s t).1.quote_data).getD []) =
      some (.str (sampleCompany t)) ∧
    dictGet "Company"
        (((fetch_company_data_terminal p ts).1.quote_data).getD []) =
      some (.str (ts.company_name ++ " (" ++ ts.ticker ++ ")")) := by
  constructor
  · rw [fetch_company_data_error_state p s t e h]
    simp [fallbackRecord, dictGet]
  · simp [fetch_company_data_terminal, h2, fallbackRecordTerminal, dictGet]

/-- Witness for the amended C1 at concrete inputs: a failing provider, a
Streamlit fetch of `AAPL` and a terminal fetch with company name `Apple`
and ticker `ORACLE`. -/
theorem c1_fallback_company_field_witness :
    dictGet "Company"
        (((fetch_company_data pOffline initDashState "AAPL").1.quote_data).getD
          []) =
      some (.str (sampleCompany "AAPL")) ∧
    dictGet "Company"
        (((fetch_company_data_terminal pOffline
            ⟨"Apple", "ORACLE", none, none⟩).1.quote_data).getD []) =
      some (.str ("Apple" ++ " (" ++ "ORACLE" ++ ")")) :=
  c1_fallback_company_field pOffline initDashState
    ⟨"Apple", "ORACLE", none, none⟩ "AAPL" "404 Not Found" "404 Not Found"
    rfl rfl

/-- C2: on any ticker and any non-empty quote record, `create_charts`
returns exactly the four charts with the fixed hard-coded series — the
six month labels, price `[100, 105, 102, 110, 108, 115]`, volume
`[1000000, 1200000, 900000, 1500000, 1300000, 1100000]`, valuation
`[25.5, 8.2, 6.1, 1.8]` and performance `[32.5, 28.3, 18.7, 22.4]` —
and only the titles mention the ticker: the result is a closed literal
except for the title fields. -/
theorem c2_create_charts_fixed_series (t : String) (q : Record)
    (h : q ≠ []) :
    create_charts (some t) (some q) = some
      { priceX := ["Jan", "Feb", "Mar", "Apr", "May", "Jun"],
        priceY := [100, 105, 102, 110, 108, 115],
        priceTitle := t ++ " Price Performance (6 Months)",
        volumeX := ["Jan", "Feb", "Mar", "Apr", "May", "Jun"],
        volumeY := [1000000, 1200000, 900000, 1500000, 1300000, 1100000],
        volumeTitle := t ++ " Trading Volume (6 Months)",
        valuationX := ["P/E", "P/B", "P/S", "PEG"],
        valuationY := [25.5, 8.2, 6.1, 1.8],
        valuationTitle := t ++ " Valuation Ratios",
        performanceLabels := ["ROE", "ROI", "ROA", "Profit Margin"],
        performanceValues := [32.5, 28.3, 18.7, 22.4],
        performanceTitle := t ++ " Performance Metrics Distribution" } := by
  cases q with
  | nil => exact absurd rfl h
  | cons a l => rfl

/-- Witness for C2 at a concrete ticker and record. -/
theorem c2_create_charts_fixed_series_witness :
    (create_charts (some "AAPL") (some (fallbackRecord "AAPL"))).isSome =
      true := by
  rw [c2_create_charts_fixed_series "AAPL" (fallbackRecord "AAPL")
        (by simp [fallbackRecord])]
  rfl

/-- C10: on the exception path the Streamlit/Flask fetch leaves the
`stock` attribute exactly as it was while overwriting `quote_data` and
`ticker`; the terminal fetch likewise leaves `stock` unchanged while
overwriting `quote_data`; and a freshly constructed dashboard has
`stock = None` — so after a failed fetch `stock` refers to a previously
fetched ticker or is `None`. -/
theorem c10_stock_unchanged_on_fallback (p : Provider) (s : DashState)
    (ts : TermState) (t e e2 : String)
    (h : p.fundament t = .error e)
    (h2 : p.fundament ts.ticker = .error e2) :
    ((fetch_company_data p s t).1.stock = s.stock ∧
     (fetch_company_data p s t).1.ticker = some t ∧
     (fetch_company_data p s t).1.quote_data = some (fallbackRecord t)) ∧
    ((fetch_company_data_terminal p ts).1.stock = ts.stock ∧
     (fetch_company_data_terminal p ts).1.quote_data =
       some (fallbackRecordTerminal ts.company_name ts.ticker)) ∧
    initDashState.stock = none := by
  refine ⟨?_, ?_, rfl⟩
  · rw [fetch_company_data_error_state p s t e h]
    exact ⟨rfl, rfl, rfl⟩
  · constructor
    · simp [fetch_company_data_terminal, h2]
    · simp [fetch_company_data_terminal, h2]

/-- Witness for C10: after a failed fetch of `AAPL` on a dashboard that
had previously fetched `MSFT`, `stock` still refers to `MSFT`. -/
theorem c10_stock_unchanged_on_fallback_witness :
    (fetch_company_data pOffline
        { ticker := some "MSFT", quote_data := none, stock := some "MSFT" }
        "AAPL").1.stock = some "MSFT" :=
  ((c10_stock_unchanged_on_fallback pOffline
      { ticker := some "MSFT", quote_data := none, stock := some "MSFT" }
      ⟨"Apple", "ORACLE", none, none⟩ "AAPL" "404 Not Found" "404 Not Found"
      rfl rfl).1).1

/-- C3 counterexample: with the fundamentals call succeeding and the
description call raising — an error occurring during the data fetch —
the stored record is not the fallback: it keeps the live Company field
while the Description key holds the substituted constant `N/A`, mixing
live provider fields with substituted constants. -/
theorem c3_mixed_record_counterexample :
    dictGet "Company"
        (((fetch_company_data pMixed initDashState "AAPL").1.quote_data).getD
          []) = some (.str "Apple Inc.") ∧
    dictGet "Description"
        (((fetch_company_data pMixed initDashState "AAPL").1.quote_data).getD
          []) = some (.str "N/A") ∧
    ((fetch_company_data pMixed initDashState "AAPL").1.quote_data).getD [] ≠
      fallbackRecord "AAPL" := by
  refine ⟨rfl, rfl, ?_⟩
  decide

/-- C3 (amended): only an exception raised by the primary fundamentals
fetch replaces the quote record wholesale with the hard-coded fallback;
an exception raised by any one of the three auxiliary calls
(description, signal, ratings) substitutes `N/A` for that single key,
while every live fundamentals field — every key other than the three
auxiliary ones — is kept unchanged. -/
theorem c3_fallback_granularity (p : Provider) (s : DashState)
    (t e : String) (q : Record) :
    (p.fundament t = .error e →
      (fetch_company_data p s t).1.quote_data = some (fallbackRecord t)) ∧
    (p.fundament t = .ok q →
      (p.description t = .error e →
        dictGet "Description"
            (((fetch_company_data p s t).1.quote_data).getD []) =
          some (.str "N/A")) ∧
      (p.signal t = .error e →
        dictGet "Signal" (((fetch_company_data p s t).1.quote_data).getD []) =
          some (.str "N/A")) ∧
      (p.ratings t = .error e →
        dictGet "Ratings" (((fetch_company_data p s t).1.quote_data).getD []) =
          some (.str "N/A")) ∧
      (∀ k, k ≠ "Description" → k ≠ "Signal" → k ≠ "Ratings" →
        dictGet k (((fetch_company_data p s t).1.quote_data).getD []) =
          dictGet k q)) := by
  constructor
  · intro h
    rw [fetch_company_data_error_state p s t e h]
  · intro hq
    rw [fetch_company_data_ok_state p s t q hq]
    simp only [Option.getD_some]
    refine ⟨?_, ?_, ?_, ?_⟩
    · intro hd
      rw [dictGet_dictSet_ne _ _ _ _ (by decide),
          dictGet_dictSet_ne _ _ _ _ (by decide),
          dictGet_dictSet_self, hd]
      rfl
    · intro hs2
      rw [dictGet_dictSet_ne _ _ _ _ (by decide),
          dictGet_dictSet_self, hs2]
      rfl
    · intro hr2
      rw [dictGet_dictSet_self, hr2]
      rfl
    · intro k hk1 hk2 hk3
      rw [dictGet_dictSet_ne _ _ _ _ hk3,
          dictGet_dictSet_ne _ _ _ _ hk2,
          dictGet_dictSet_ne _ _ _ _ hk1]

/-- Witness for the amended C3: wholesale replacement on a failing
provider; `N/A` substituted for each of the three auxiliary keys when
all three auxiliary calls fail; and the live fundamentals fields
(here Company) preserved. -/
theorem c3_fallback_granularity_witness :
    (fetch_company_data pOffline initDashState "AAPL").1.quote_data =
      some (fallbackRecord "AAPL") ∧
    dictGet "Description"
        (((fetch_company_data pAuxFail initDashState "AAPL").1.quote_data).getD
          []) = some (.str "N/A") ∧
    dictGet "Signal"
        (((fetch_company_data pAuxFail initDashState "AAPL").1.quote_data).getD
          []) = some (.str "N/A") ∧
    dictGet "Ratings"
        (((fetch_company_data pAuxFail initDashState "AAPL").1.quote_data).getD
          []) = some (.str "N/A") ∧
    dictGet "Company"
        (((fetch_company_data pAuxFail initDashState "AAPL").1.quote_data).getD
          []) = some (.str "Apple Inc.") := by
  have h := (c3_fallback_granularity pAuxFail initDashState "AAPL" "timeout"
    [("Company", .str "Apple Inc."), ("Price", .str "150.00")]).2 rfl
  refine ⟨(c3_fallback_granularity pOffline initDashState "AAPL"
      "404 Not Found" []).1 rfl,
    h.1 rfl, h.2.1 rfl, h.2.2.1 rfl, ?_⟩
  exact (h.2.2.2 "Company" (by decide) (by decide) (by decide)).trans rfl

/-- C5: when the fundamentals call on a ticker succeeds, the Company
field of the fetched record is exactly the provider's Company value, and
whenever that value is not itself the string
`Sample Company (<ticker>)` the fetched Company field does not match the
fallback template. -/
theorem c5_company_passthrough (p : Provider) (s : DashState) (t : String)
    (q : Record) (c : String)
    (hq : p.fundament t = .ok q)
    (hc : dictGet "Company" q = some (.str c)) :
    dictGet "Company" (((fetch_company_data p s t).1.quote_data).getD []) =
      some (.str c) ∧
    (c ≠ sampleCompany t →
      dictGet "Company" (((fetch_company_data p s t).1.quote_data).getD []) ≠
        some (.str (sampleCompany t))) := by
  have hmain : dictGet "Company"
      (((fetch_company_data p s t).1.quote_data).getD []) = some (.str c) := by
    rw [fetch_company_data_ok_state p s t q hq]
    simp only [Option.getD_some]
    rw [dictGet_dictSet_ne _ _ _ _ (by decide),
        dictGet_dictSet_ne _ _ _ _ (by decide),
        dictGet_dictSet_ne _ _ _ _ (by decide), hc]
  refine ⟨hmain, fun hne hcontra => ?_⟩
  rw [hmain] at hcontra
  exact hne (by simpa using hcontra)

/-- Witness for C5 at a successful provider returning
`Company = Apple Inc.` for `AAPL`. -/
theorem c5_company_passthrough_witness :
    dictGet "Company"
        (((fetch_company_data pGood initDashState "AAPL").1.quote_data).getD
          []) = some (.str "Apple Inc.") :=
  (c5_company_passthrough pGood initDashState "AAPL"
      [("Company", .str "Apple Inc."), ("Price", .str "150.00")] "Apple Inc."
      rfl rfl).1

/-- C8 counterexample: on a successful fetch whose signal call returns
an empty list and whose ratings call returns a data frame — shapes the
provider actually produces and the display code guards against — the
stored record maps `Signal` to a non-string value, so not every value of
the quote record is an already-formatted display string. -/
theorem c8_nonstring_value_counterexample :
    dictGet "Signal"
        (((fetch_company_data pNonString initDashState "AAPL").1.quote_data).getD
          []) = some (.strList []) ∧
    allStr
        (((fetch_company_data pNonString initDashState "AAPL").1.quote_data).getD
          []) = false :=
  ⟨rfl, rfl⟩

/-- C8 (amended): after every fallback fetch (the path where the code
itself builds the record) every value of the quote record is a plain
display string; on the success path the auxiliary Description, Signal
and Ratings values are whatever the provider returned and may be
non-strings. -/
theorem c8_fallback_all_strings (p : Provider) (s : DashState) (t e : String)
    (h : p.fundament t = .error e) :
    allStr (((fetch_company_data p s t).1.quote_data).getD []) = true := by
  rw [fetch_company_data_error_state p s t e h]
  simp [allStr, fallbackRecord, Value.isStr, sampleCompany]

/-- Witness for the amended C8 with a failing provider. -/
theorem c8_fallback_all_strings_witness :
    allStr
        (((fetch_company_data pOffline initDashState "AAPL").1.quote_data).getD
          []) = true :=
  c8_fallback_all_strings pOffline initDashState "AAPL" "404 Not Found" rfl

/-- C4: for every provider behaviour (success or exception) the result
of `get_dashboard_data` has `success = True` and carries the ticker, the
quote record and the charts; the `success = False` branch is unreachable
because `fetch_company_data` returns `True` on both its success and its
fallback path, so the JSON API never reports failure and the POST route
never renders the error page. -/
theorem c4_error_branch_unreachable (p : Provider) (s : DashState)
    (t raw e : String) :
    (fetch_company_data p s t).2 = true ∧
    (get_dashboard_data p s t).2.success = true ∧
    (get_dashboard_data p s t).2.ticker = some t ∧
    (get_dashboard_data p s t).2.data =
      (fetch_company_data p s t).1.quote_data ∧
    ((get_dashboard_data p s t).2.data).isSome = true ∧
    ((get_dashboard_data p s t).2.charts).isSome = true ∧
    (get_dashboard_data p s t).2.error = none ∧
    (api_dashboard p s t).2.success = true ∧
    (show_dashboard p s raw).2 ≠ WebResponse.errorPage e := by
  have hT := fetch_company_data_true p s t
  have hgd : (get_dashboard_data p s t).2 =
      { success := true, ticker := (fetch_company_data p s t).1.ticker,
        data := (fetch_company_data p s t).1.quote_data,
        charts := create_charts (fetch_company_data p s t).1.ticker
          (fetch_company_data p s t).1.quote_data,
        error := none } := by
    simp [get_dashboard_data, hT]
  have hticker : (fetch_company_data p s t).1.ticker = some t := by
    cases hf : p.fundament t with
    | ok q0 => rw [fetch_company_data_ok_state p s t q0 hf]
    | error e0 => rw [fetch_company_data_error_state p s t e0 hf]
  have hqd : ∃ q, (fetch_company_data p s t).1.quote_data = some q ∧
      q ≠ [] := by
    cases hf : p.fundament t with
    | ok q0 =>
        rw [fetch_company_data_ok_state p s t q0 hf]
        exact ⟨_, rfl, dictSet_ne_nil _ _ _⟩
    | error e0 =>
        rw [fetch_company_data_error_state p s t e0 hf]
        exact ⟨fallbackRecord t, rfl, by simp [fallbackRecord]⟩
  obtain ⟨q, hq, hqne⟩ := hqd
  have hsucc : ∀ t0 s0, (get_dashboard_data p s0 t0).2.success = true := by
    intro t0 s0
    simp [get_dashboard_data, fetch_company_data_true]
  refine ⟨hT, by rw [hgd], by rw [hgd, hticker], by rw [hgd], ?_, ?_, by rw [hgd],
    hsucc t s, ?_⟩
  · rw [hgd, hq]
    rfl
  · rw [hgd, hticker, hq]
    exact create_charts_some_of_ne_nil (some t) q hqne
  · unfold show_dashboard
    by_cases hr : (pyStrip raw).isEmpty
    · simp [hr]
    · simp only [hr, if_false, Bool.false_eq_true]
      simp [renderDashResult, hsucc]

/-- C7 counterexample: the Flask server keeps one module-level
`WebStockDashboard` object shared by all requests, and handling a
request mutates it — after serving `/api/dashboard/AAPL` the shared
state differs from the state before the request (its `ticker` went from
`None` to `AAPL`), so a request does mutate state shared between
requests. -/
theorem c7_shared_state_mutated_counterexample :
    (api_dashboard pOffline initDashState "AAPL").1.ticker = some "AAPL" ∧
    initDashState.ticker = none ∧
    (api_dashboard pOffline initDashState "AAPL").1 ≠ initDashState := by
  refine ⟨rfl, rfl, fun hcontra => ?_⟩
  have h : (some "AAPL" : Option String) = none :=
    congrArg DashState.ticker hcontra
  exact Option.noConfusion h

/-- C7 (amended): handling a request does mutate the shared module-level
dashboard object, but every request overwrites `ticker` and
`quote_data` before reading them and never reads `stock`, so the
response of each route is independent of the state earlier requests left
behind. -/
theorem c7_response_independent_of_prior_state (p : Provider)
    (t raw : String) (s1 s2 : DashState) :
    (api_dashboard p s1 t).2 = (api_dashboard p s2 t).2 ∧
    (show_dashboard p s1 raw).2 = (show_dashboard p s2 raw).2 := by
  constructor
  · exact get_dashboard_data_state_independent p t s1 s2
  · unfold show_dashboard
    by_cases hr : (pyStrip raw).isEmpty
    · simp [hr]
    · simp only [hr, if_false, Bool.false_eq_true]
      rw [get_dashboard_data_state_independent p (pyUpper (pyStrip raw)) s1 s2]

/-- C6: `find_ticker` succeeds exactly when the API key is configured,
the company name is non-empty, the HTTP call returns status 200 with a
non-empty choices list, and the stripped uppercased first content is
non-empty; on success the returned ticker is that stripped uppercased
content with no error, and in every other case (missing key, empty name,
raised exception, non-200 status, missing or empty choices, empty
content) the result has `success = False`, ticker `None` and a non-None
error string. -/
theorem c6_find_ticker_characterization (env : LookupEnv)
    (company_name : String) :
    ((find_ticker env company_name).success = true ↔
      findTickerSuccessSpec env company_name) ∧
    ((find_ticker env company_name).success = true →
      (find_ticker env company_name).ticker =
        (firstChoiceContent env).map (fun c => pyUpper (pyStrip c)) ∧
      (find_ticker env company_name).error = none) ∧
    ((find_ticker env company_name).success = false →
      (find_ticker env company_name).ticker = none ∧
      ((find_ticker env company_name).error).isSome = true) := by
  by_cases hk : apiKeyTruthy env.apiKey = false
  · simp [find_ticker, hk, findTickerSuccessSpec]
  · have hk2 : apiKeyTruthy env.apiKey = true := by
      cases hv : apiKeyTruthy env.apiKey
      · exact absurd hv hk
      · rfl
    by_cases hn : company_name.isEmpty
    · simp [find_ticker, hk2, hn, findTickerSuccessSpec]
    · have hn2 : company_name.isEmpty = false := by
        cases hv : company_name.isEmpty
        · rfl
        · exact absurd hv hn
      cases hp : env.post with
      | error e =>
          simp [find_ticker, hk2, hn2, hp, findTickerSuccessSpec,
            firstChoiceContent]
      | ok resp =>
          by_cases hs : resp.status = 200
          · cases hc : resp.choices with
            | none =>
                simp [find_ticker, hk2, hn2, hp, hs, hc,
                  findTickerSuccessSpec, firstChoiceContent]
            | some cs =>
                cases cs with
                | nil =>
                    simp [find_ticker, hk2, hn2, hp, hs, hc,
                      findTickerSuccessSpec, firstChoiceContent]
                | cons c rest =>
                    by_cases ht : (pyUpper (pyStrip c)).isEmpty
                    · simp [find_ticker, hk2, hn2, hp, hs, hc, ht,
                        findTickerSuccessSpec, firstChoiceContent]
                    · have ht2 : (pyUpper (pyStrip c)).isEmpty = false := by
                        cases hv : (pyUpper (pyStrip c)).isEmpty
                        · rfl
                        · exact absurd hv ht
                      simp [find_ticker, hk2, hn2, hp, hs, hc, ht2,
                        findTickerSuccessSpec, firstChoiceContent]
          · simp [find_ticker, hk2, hn2, hp, hs, findTickerSuccessSpec,
              firstChoiceContent]

/-- Witness for C6: a configured key, a 200 response whose first choice
content is ` nvda `, and a non-empty company name yield ticker `NVDA`
with no error. -/
theorem c6_find_ticker_characterization_witness :
    (find_ticker envGood "Nvidia").ticker = some "NVDA" ∧
    (find_ticker envGood "Nvidia").error = none := by
  have hs : (find_ticker envGood "Nvidia").success = true := by rfl
  have h := (c6_find_ticker_characterization envGood "Nvidia").2.1 hs
  have hmap : (firstChoiceContent envGood).map (fun c => pyUpper (pyStrip c)) =
      some "NVDA" := by rfl
  exact ⟨h.1.trans hmap, h.2⟩

/-- C9: `validate_ticker` returns `(True, Valid ticker format)` exactly
when the ticker is non-empty, the ticker with all dots removed is
alphanumeric, and its length is at most 10; otherwise it returns `False`
with the message of the first failing check, tested in the order empty,
invalid characters, too long. -/
theorem c9_validate_ticker_characterization (t : String) :
    (validate_ticker t = (true, "Valid ticker format") ↔
      (t.isEmpty = false ∧ pyIsAlnum (stripDots t) = true ∧
        t.length ≤ 10)) ∧
    (t.isEmpty = true → validate_ticker t = (false, "Ticker cannot be empty")) ∧
    (t.isEmpty = false → pyIsAlnum (stripDots t) = false →
      validate_ticker t = (false, "Ticker contains invalid characters")) ∧
    (t.isEmpty = false → pyIsAlnum (stripDots t) = true → 10 < t.length →
      validate_ticker t = (false, "Ticker too long")) := by
  by_cases h1 : t.isEmpty
  · simp [validate_ticker, h1]
  · have h1f : t.isEmpty = false := by
      cases hv : t.isEmpty
      · rfl
      · exact absurd hv h1
    by_cases h2 : pyIsAlnum (stripDots t) = true
    · by_cases h3 : t.length ≤ 10
      · have h3f : ¬t.length > 10 := by omega
        simp [validate_ticker, h1f, h2, h3, h3f]
      · have h3t : t.length > 10 := by omega
        simp [validate_ticker, h1f, h2, h3, h3t]
    · have h2f : pyIsAlnum (stripDots t) = false := by
        cases hv : pyIsAlnum (stripDots t)
        · rfl
        · exact absurd hv h2
      simp [validate_ticker, h1f, h2f]

/-- Witness for C9: the empty ticker fails the first check and `BRK.A`
passes all three. -/
theorem c9_validate_ticker_characterization_witness :
    validate_ticker "" = (false, "Ticker cannot be empty") ∧
    validate_ticker "BRK.A" = (true, "Valid ticker format") :=
  ⟨(c9_validate_ticker_characterization "").2.1 rfl,
   ((c9_validate_ticker_characterization "BRK.A").1).mpr (by decide)⟩

end Stockcheck
